import Mathlib

/-!
Verification of the Ford energy-dashboard frontend core.

Shallow embedding of:
* `src/frontend/src/utils/anomalyDetection.ts` (zone ranges, severity, detection),
* `src/frontend/src/utils/historicalData.ts` (baselines, percentage diff, status),
* `src/frontend/src/context/EnergyContext.tsx` (bounded per-zone history windowing),
* `src/frontend/src/hooks/useWebSocket.ts` (reconnect/backoff state machine).

JavaScript numbers are modelled as rationals (`ℚ`); all literals appearing in the
code (1.5, 0.5, 0.3, 2) are exactly representable as rationals, so ideal-rational
arithmetic matches the algorithmic content of the code.  The one place where the
code can leave the finite reals — the division by `previousReading.energyKw`,
which in JavaScript yields `Infinity` or `NaN` when the divisor is 0 — is modelled
explicitly by the `JsAbs` type below, so that the IEEE semantics of the comparison
operators on those values is preserved.
-/

/-- Mirrors `EnergyReading` from `src/frontend/src/types/index.ts`. -/
structure EnergyReading where
  timestamp : String
  zoneId : String
  zoneName : String
  energyKw : ℚ
  temperature : ℚ
  equipmentCount : ℕ
deriving DecidableEq, Repr

/-- Mirrors `AnomalyType` from `src/frontend/src/types/index.ts`:
`'spike' | 'drop' | 'flatline'`. -/
inductive AnomalyType where
  | spike
  | drop
  | flatline
deriving DecidableEq, Repr

/-- Mirrors `AnomalySeverity` from `src/frontend/src/types/index.ts`:
`'warning' | 'critical'`. -/
inductive AnomalySeverity where
  | warning
  | critical
deriving DecidableEq, Repr

/-- Mirrors the `Anomaly` interface from `src/frontend/src/types/index.ts`. -/
structure Anomaly where
  id : String
  type : AnomalyType
  zoneId : String
  zoneName : String
  timestamp : String
  value : ℚ
  threshold : ℚ
  severity : AnomalySeverity
deriving DecidableEq, Repr

/-- An entry of the `ZONE_RANGES` record in `anomalyDetection.ts`. -/
structure ZoneRange where
  min : ℚ
  max : ℚ
deriving DecidableEq, Repr

/-- Mirrors the `ZONE_RANGES` record from `anomalyDetection.ts` (a JavaScript
`Record<string, {min, max}>` is a partial map from strings). -/
def ZONE_RANGES (zoneId : String) : Option ZoneRange :=
  if zoneId = "assembly-1" then some ⟨220, 280⟩
  else if zoneId = "paint-shop" then some ⟨150, 200⟩
  else if zoneId = "stamping-press" then some ⟨300, 400⟩
  else if zoneId = "quality-control" then some ⟨50, 80⟩
  else if zoneId = "warehouse" then some ⟨20, 40⟩
  else none

/-- Value of the JavaScript expression `Math.abs(x)` where `x` is a quotient of
doubles: either a finite (here: rational) number, `Infinity`, or `NaN`. -/
inductive JsAbs where
  | num (q : ℚ)
  | inf
  | nan
deriving DecidableEq, Repr

/-- Models the JavaScript expression `Math.abs((a - b) / b)` on doubles: for
`b = 0` the division yields `Infinity` (numerator nonzero) or `NaN` (numerator
zero), both fixed by `Math.abs` up to sign. -/
def percentChangeOf (a b : ℚ) : JsAbs :=
  if b = 0 then (if a - b = 0 then .nan else .inf) else .num |(a - b) / b|

/-- JavaScript comparison `x <= c` for a `Math.abs` result: `Infinity <= c` and
`NaN <= c` are both `false`. -/
def JsAbs.leq : JsAbs → ℚ → Bool
  | .num q, c => decide (q ≤ c)
  | .inf, _ => false
  | .nan, _ => false

/-- JavaScript comparison `x > c` for a `Math.abs` result: `Infinity > c` is
`true`, `NaN > c` is `false`. -/
def JsAbs.gtq : JsAbs → ℚ → Bool
  | .num q, c => decide (c < q)
  | .inf, _ => true
  | .nan, _ => false

/-- Mirrors `calculateSeverity` from `anomalyDetection.ts`. -/
def calculateSeverity (value threshold criticalMultiplier : ℚ) : AnomalySeverity :=
  if threshold * criticalMultiplier < value then .critical else .warning

/-- Mirrors `createAnomaly` from `anomalyDetection.ts`. -/
def createAnomaly (reading : EnergyReading) (type : AnomalyType) (threshold : ℚ)
    (severity : AnomalySeverity) : Anomaly :=
  { id := reading.zoneId ++ "-" ++ reading.timestamp
    type := type
    zoneId := reading.zoneId
    zoneName := reading.zoneName
    timestamp := reading.timestamp
    value := reading.energyKw
    threshold := threshold
    severity := severity }

/-- Mirrors `detectAnomaly` from `anomalyDetection.ts` line for line.  The
pattern-based percent change goes through `percentChangeOf`/`JsAbs` so that the
unguarded division by `previousReading.energyKw` keeps its JavaScript
semantics. -/
def detectAnomaly (reading : EnergyReading) (previousReading : Option EnergyReading) :
    Option Anomaly :=
  match ZONE_RANGES reading.zoneId with
  | none => none
  | some range =>
    let energyKw := reading.energyKw
    let spikeThreshold := range.max * (3 / 2)
    let dropThreshold := range.min * (1 / 2)
    if spikeThreshold < energyKw then
      some (createAnomaly reading .spike spikeThreshold (calculateSeverity energyKw range.max 2))
    else if energyKw < dropThreshold then
      some (createAnomaly reading .drop dropThreshold
        (if energyKw < range.min * (3 / 10) then .critical else .warning))
    else
      match previousReading with
      | none => none
      | some prev =>
        if prev.zoneId ≠ reading.zoneId then none
        else
          let percentChange := percentChangeOf energyKw prev.energyKw
          if percentChange.leq (3 / 10) then none
          else
            let ty : AnomalyType := if prev.energyKw < energyKw then .spike else .drop
            let sev : AnomalySeverity :=
              if percentChange.gtq (1 / 2) then .critical else .warning
            some (createAnomaly reading ty prev.energyKw sev)

/-- Concrete entry of the zone-range record, for evaluating the detector on
sample inputs. -/
theorem ZONE_RANGES_warehouse : ZONE_RANGES "warehouse" = some ⟨20, 40⟩ := by decide

/-- C1: a reading above 1.5× the registered zone max always yields a spike
anomaly with threshold 1.5×max, for any previous reading; its severity is
critical exactly when the reading exceeds 2×max, and warning otherwise. -/
theorem spike_threshold_rule (r : EnergyReading) (prev : Option EnergyReading)
    (range : ZoneRange) (hr : ZONE_RANGES r.zoneId = some range)
    (h : range.max * (3 / 2) < r.energyKw) :
    ∃ a, detectAnomaly r prev = some a ∧ a.type = .spike ∧
      a.threshold = range.max * (3 / 2) ∧
      (a.severity = .critical ↔ range.max * 2 < r.energyKw) ∧
      (a.severity = .warning ↔ ¬ range.max * 2 < r.energyKw) := by
  refine ⟨createAnomaly r .spike (range.max * (3 / 2))
      (calculateSeverity r.energyKw range.max 2), ?_, rfl, rfl, ?_, ?_⟩
  · unfold detectAnomaly
    rw [hr]
    simp only [if_pos h]
  · unfold calculateSeverity createAnomaly
    split <;> simp_all
  · unfold calculateSeverity createAnomaly
    split <;> simp_all

/-- Witness for C1 at the concrete reading `warehouse, 100 kW`. -/
theorem spike_threshold_rule_witness :
    ZONE_RANGES "warehouse" = some ⟨20, 40⟩ ∧
    (40 : ℚ) * (3 / 2) < 100 ∧
    (∃ a, detectAnomaly ⟨"t1", "warehouse", "Warehouse", 100, 22, 5⟩ none = some a ∧
      a.type = .spike ∧ a.threshold = (40 : ℚ) * (3 / 2) ∧
      (a.severity = .critical ↔ (40 : ℚ) * 2 < 100) ∧
      (a.severity = .warning ↔ ¬ (40 : ℚ) * 2 < 100)) :=
  ⟨by decide, by norm_num,
    spike_threshold_rule ⟨"t1", "warehouse", "Warehouse", 100, 22, 5⟩ none ⟨20, 40⟩
      (by decide) (by norm_num)⟩

/-- C2: a reading at or below 1.5× the registered max but below 0.5× the
registered min always yields a drop anomaly with threshold 0.5×min, for any
previous reading; its severity is critical exactly when the reading is below
0.3×min, and warning otherwise. -/
theorem drop_threshold_rule (r : EnergyReading) (prev : Option EnergyReading)
    (range : ZoneRange) (hr : ZONE_RANGES r.zoneId = some range)
    (h1 : r.energyKw ≤ range.max * (3 / 2)) (h2 : r.energyKw < range.min * (1 / 2)) :
    ∃ a, detectAnomaly r prev = some a ∧ a.type = .drop ∧
      a.threshold = range.min * (1 / 2) ∧
      (a.severity = .critical ↔ r.energyKw < range.min * (3 / 10)) ∧
      (a.severity = .warning ↔ ¬ r.energyKw < range.min * (3 / 10)) := by
  refine ⟨createAnomaly r .drop (range.min * (1 / 2))
      (if r.energyKw < range.min * (3 / 10) then .critical else .warning),
    ?_, rfl, rfl, ?_, ?_⟩
  · unfold detectAnomaly
    rw [hr]
    simp only [if_neg (not_lt.mpr h1), if_pos h2]
  · unfold createAnomaly
    split <;> simp_all
  · unfold createAnomaly
    split <;> simp_all

/-- Witness for C2 at the concrete reading `warehouse, 4 kW`. -/
theorem drop_threshold_rule_witness :
    ZONE_RANGES "warehouse" = some ⟨20, 40⟩ ∧
    (4 : ℚ) ≤ 40 * (3 / 2) ∧ (4 : ℚ) < 20 * (1 / 2) ∧
    (∃ a, detectAnomaly ⟨"t1", "warehouse", "Warehouse", 4, 22, 5⟩ none = some a ∧
      a.type = .drop ∧ a.threshold = (20 : ℚ) * (1 / 2) ∧
      (a.severity = .critical ↔ (4 : ℚ) < 20 * (3 / 10)) ∧
      (a.severity = .warning ↔ ¬ (4 : ℚ) < 20 * (3 / 10))) :=
  ⟨by decide, by norm_num, by norm_num,
    drop_threshold_rule ⟨"t1", "warehouse", "Warehouse", 4, 22, 5⟩ none ⟨20, 40⟩
      (by decide) (by norm_num) (by norm_num)⟩

/-- C9: a reading whose zone has no registered range yields no anomaly,
whatever the previous reading is (the detector is total, so it cannot
throw). -/
theorem unknown_zone_returns_none (r : EnergyReading)
    (hr : ZONE_RANGES r.zoneId = none) (prev : Option EnergyReading) :
    detectAnomaly r prev = none := by
  unfold detectAnomaly
  rw [hr]

/-- Witness for C9 at a zone absent from `ZONE_RANGES`. -/
theorem unknown_zone_returns_none_witness :
    ZONE_RANGES "boiler-room" = none ∧
    detectAnomaly ⟨"t1", "boiler-room", "Boiler Room", 500, 22, 5⟩ none = none :=
  ⟨by decide,
    unknown_zone_returns_none ⟨"t1", "boiler-room", "Boiler Room", 500, 22, 5⟩
      (by decide) none⟩

/-- C10: the detector never produces a flatline anomaly — every anomaly it
returns is a spike or a drop, although the `AnomalyType` union also contains
`flatline`. -/
theorem detector_never_flatline (r : EnergyReading) (prev : Option EnergyReading)
    (a : Anomaly) (h : detectAnomaly r prev = some a) :
    a.type ≠ .flatline ∧ (a.type = .spike ∨ a.type = .drop) := by
  have htype : a.type = .spike ∨ a.type = .drop := by
    unfold detectAnomaly at h
    rcases hz : ZONE_RANGES r.zoneId with _ | range <;> rw [hz] at h
    · exact absurd h (by simp)
    · simp only [] at h
      split at h
      · cases h
        left
        rfl
      · split at h
        · cases h
          right
          rfl
        · rcases prev with _ | prev
          · exact absurd h (by simp)
          · simp only [] at h
            split at h
            · exact absurd h (by simp)
            · split at h
              · exact absurd h (by simp)
              · cases h
                unfold createAnomaly
                split
                · left
                  rfl
                · right
                  rfl
  refine ⟨?_, htype⟩
  rcases htype with h1 | h1 <;> simp [h1]

/-- Witness for C10 at a concrete spike-producing input. -/
theorem detector_never_flatline_witness :
    detectAnomaly ⟨"t1", "warehouse", "Warehouse", 100, 22, 5⟩ none =
      some ⟨"warehouse-t1", .spike, "warehouse", "Warehouse", "t1", 100, 60, .critical⟩ ∧
    (AnomalyType.spike ≠ .flatline ∧
      (AnomalyType.spike = .spike ∨ AnomalyType.spike = .drop)) := by
  have heval : detectAnomaly ⟨"t1", "warehouse", "Warehouse", 100, 22, 5⟩ none =
      some ⟨"warehouse-t1", .spike, "warehouse", "Warehouse", "t1", 100, 60, .critical⟩ := by
    simp only [detectAnomaly, ZONE_RANGES_warehouse, createAnomaly, calculateSeverity]
    norm_num
    decide
  exact ⟨heval,
    detector_never_flatline ⟨"t1", "warehouse", "Warehouse", 100, 22, 5⟩ none
      ⟨"warehouse-t1", .spike, "warehouse", "Warehouse", "t1", 100, 60, .critical⟩ heval⟩

/-- C3 (amended): for a reading within the threshold bounds and a previous
reading of the same zone with nonzero energy, the detector returns none exactly
when the absolute relative change `|(e − p) / p|` is at most 0.3; above 0.3 it
returns an anomaly typed spike when the reading rose and drop when it fell,
with threshold equal to the previous reading and severity critical exactly when
the absolute relative change exceeds 0.5.  (The claim's unsigned-numerator
formula `|e − p| / p` coincides with this whenever `p > 0` but not for
`p < 0`.) -/
theorem pattern_change_rule (r p : EnergyReading) (range : ZoneRange)
    (hr : ZONE_RANGES r.zoneId = some range)
    (h1 : r.energyKw ≤ range.max * (3 / 2)) (h2 : range.min * (1 / 2) ≤ r.energyKw)
    (hz : p.zoneId = r.zoneId) (hp : p.energyKw ≠ 0) :
    (|(r.energyKw - p.energyKw) / p.energyKw| ≤ 3 / 10 →
      detectAnomaly r (some p) = none) ∧
    (3 / 10 < |(r.energyKw - p.energyKw) / p.energyKw| →
      ∃ a, detectAnomaly r (some p) = some a ∧
        a.type = (if p.energyKw < r.energyKw then AnomalyType.spike else .drop) ∧
        a.threshold = p.energyKw ∧
        (a.severity = .critical ↔ 1 / 2 < |(r.energyKw - p.energyKw) / p.energyKw|) ∧
        (a.severity = .warning ↔ ¬ 1 / 2 < |(r.energyKw - p.energyKw) / p.energyKw|)) := by
  have hred : detectAnomaly r (some p) =
      (if (percentChangeOf r.energyKw p.energyKw).leq (3 / 10) then none
       else some (createAnomaly r
          (if p.energyKw < r.energyKw then .spike else .drop) p.energyKw
          (if (percentChangeOf r.energyKw p.energyKw).gtq (1 / 2) then .critical
           else .warning))) := by
    unfold detectAnomaly
    rw [hr]
    simp only [if_neg (not_lt.mpr h1), if_neg (not_lt.mpr h2), if_neg (not_not_intro hz)]
  have hnum : percentChangeOf r.energyKw p.energyKw =
      .num |(r.energyKw - p.energyKw) / p.energyKw| := by
    unfold percentChangeOf
    rw [if_neg hp]
  constructor
  · intro hle
    rw [hred, hnum]
    simp [JsAbs.leq, hle]
  · intro hgt
    refine ⟨createAnomaly r (if p.energyKw < r.energyKw then .spike else .drop) p.energyKw
        (if (percentChangeOf r.energyKw p.energyKw).gtq (1 / 2) then .critical
         else .warning), ?_, rfl, rfl, ?_, ?_⟩
    · rw [hred, hnum]
      simp [JsAbs.leq, not_le.mpr hgt]
    · rw [hnum]
      unfold createAnomaly JsAbs.gtq
      split <;> simp_all
    · rw [hnum]
      unfold createAnomaly JsAbs.gtq
      split <;> simp_all

/-- Counterexample to C3 as stated: at a previous reading of −1 kW the claim's
percent change `|e − p| / p = −31` is below 0.3, so the claim requires the
detector to return none; the code computes `|(e − p) / p| = 31` and returns a
critical spike anomaly. -/
theorem pattern_change_rule_counterexample :
    ZONE_RANGES "warehouse" = some ⟨20, 40⟩ ∧
    (30 : ℚ) ≤ 40 * (3 / 2) ∧ (20 : ℚ) * (1 / 2) ≤ 30 ∧
    (-1 : ℚ) ≠ 0 ∧
    |(30 : ℚ) - (-1)| / (-1) ≤ 3 / 10 ∧
    detectAnomaly ⟨"t1", "warehouse", "Warehouse", 30, 22, 5⟩
        (some ⟨"t0", "warehouse", "Warehouse", -1, 21, 5⟩) =
      some ⟨"warehouse-t1", .spike, "warehouse", "Warehouse", "t1", 30, -1, .critical⟩ := by
  refine ⟨by decide, by norm_num, by norm_num, by norm_num, by rw [abs_of_nonneg] <;> norm_num, ?_⟩
  simp only [detectAnomaly, ZONE_RANGES_warehouse, createAnomaly, calculateSeverity,
    percentChangeOf, JsAbs.leq, JsAbs.gtq]
  norm_num
  decide

/-- Witness for the amended C3 at a previous reading of 20 kW and a current
reading of 30 kW (relative change 0.5). -/
theorem pattern_change_rule_witness :
    ZONE_RANGES "warehouse" = some ⟨20, 40⟩ ∧
    (30 : ℚ) ≤ 40 * (3 / 2) ∧ (20 : ℚ) * (1 / 2) ≤ 30 ∧ (20 : ℚ) ≠ 0 ∧
    ((|((30 : ℚ) - 20) / 20| ≤ 3 / 10 →
      detectAnomaly ⟨"t1", "warehouse", "Warehouse", 30, 22, 5⟩
        (some ⟨"t0", "warehouse", "Warehouse", 20, 21, 5⟩) = none) ∧
     (3 / 10 < |((30 : ℚ) - 20) / 20| →
      ∃ a, detectAnomaly ⟨"t1", "warehouse", "Warehouse", 30, 22, 5⟩
          (some ⟨"t0", "warehouse", "Warehouse", 20, 21, 5⟩) = some a ∧
        a.type = (if (20 : ℚ) < 30 then AnomalyType.spike else .drop) ∧
        a.threshold = (20 : ℚ) ∧
        (a.severity = .critical ↔ 1 / 2 < |((30 : ℚ) - 20) / 20|) ∧
        (a.severity = .warning ↔ ¬ 1 / 2 < |((30 : ℚ) - 20) / 20|))) :=
  ⟨by decide, by norm_num, by norm_num, by norm_num,
    pattern_change_rule ⟨"t1", "warehouse", "Warehouse", 30, 22, 5⟩
      ⟨"t0", "warehouse", "Warehouse", 20, 21, 5⟩ ⟨20, 40⟩
      (by decide) (by norm_num) (by norm_num) rfl (by norm_num)⟩

/-- C4: the spec requires the division by a previous reading of 0 to be guarded
(no pattern check, return none); the code performs the division unguarded, the
JavaScript quotient is `Infinity`, and the detector returns a critical spike
anomaly with threshold 0.  This theorem evaluates the code at the failing
input. -/
theorem division_by_zero_not_guarded :
    detectAnomaly ⟨"t1", "warehouse", "Warehouse", 30, 22, 5⟩
      (some ⟨"t0", "warehouse", "Warehouse", 0, 21, 5⟩) =
    some ⟨"warehouse-t1", .spike, "warehouse", "Warehouse", "t1", 30, 0, .critical⟩ := by
  simp only [detectAnomaly, ZONE_RANGES_warehouse, createAnomaly, calculateSeverity,
    percentChangeOf, JsAbs.leq, JsAbs.gtq]
  norm_num
  decide

/-- Result type of `getComparisonStatus` in `historicalData.ts`:
`'normal' | 'above' | 'below'`. -/
inductive ComparisonStatus where
  | normal
  | above
  | below
deriving DecidableEq, Repr

/-- Mirrors `calculatePercentageDiff` from `historicalData.ts`. -/
def calculatePercentageDiff (current baseline : ℚ) : ℚ :=
  if baseline = 0 then 0 else (current - baseline) / baseline * 100

/-- Mirrors `getComparisonStatus` from `historicalData.ts`. -/
def getComparisonStatus (percentage : ℚ) : ComparisonStatus :=
  if |percentage| < 10 then .normal
  else if 0 < percentage then .above else .below

/-- C6: the percentage diff is 0 on a zero baseline and `(c − b)/b × 100`
otherwise; the status is normal exactly when `|percentage| < 10`, otherwise
above for positive and below for non-positive percentages; and `compare(110,
100)` yields percentage 10 with status above (the boundary resolves to
above). -/
theorem comparison_function_spec :
    (∀ current baseline : ℚ, baseline = 0 → calculatePercentageDiff current baseline = 0) ∧
    (∀ current baseline : ℚ, baseline ≠ 0 →
      calculatePercentageDiff current baseline = (current - baseline) / baseline * 100) ∧
    (∀ p : ℚ, (getComparisonStatus p = .normal ↔ |p| < 10) ∧
      (¬ |p| < 10 →
        getComparisonStatus p = (if 0 < p then .above else .below))) ∧
    calculatePercentageDiff 110 100 = 10 ∧
    getComparisonStatus (calculatePercentageDiff 110 100) = .above := by
  have h110 : calculatePercentageDiff 110 100 = 10 := by
    unfold calculatePercentageDiff
    norm_num
  refine ⟨?_, ?_, ?_, h110, ?_⟩
  · intro c b h
    simp [calculatePercentageDiff, h]
  · intro c b h
    simp [calculatePercentageDiff, h]
  · intro p
    constructor
    · unfold getComparisonStatus
      split_ifs with h1 h2 <;> simp_all
    · intro h
      unfold getComparisonStatus
      rw [if_neg h]
  · rw [h110]
    unfold getComparisonStatus
    norm_num

/-- Witness for C6, instantiating the quantified parts at `baseline = 100` and
`percentage = 15`. -/
theorem comparison_function_spec_witness :
    (100 : ℚ) ≠ 0 ∧ ¬ |(15 : ℚ)| < 10 ∧
    calculatePercentageDiff 110 100 = (110 - 100) / 100 * 100 ∧
    getComparisonStatus 15 = (if (0 : ℚ) < 15 then ComparisonStatus.above else .below) :=
  ⟨by norm_num, by norm_num,
    comparison_function_spec.2.1 110 100 (by norm_num),
    (comparison_function_spec.2.2.1 15).2 (by norm_num)⟩

/-- Mirrors the `HistoricalBaseline` interface from `historicalData.ts`. -/
structure HistoricalBaseline where
  zoneId : String
  zoneName : String
  avgEnergyKw : ℚ
  minEnergyKw : ℚ
  maxEnergyKw : ℚ
  dataPoints : ℕ
deriving DecidableEq, Repr

/-- Per-zone energy values as grouped by `calculateBaselines` in
`historicalData.ts`: the grouping loop pushes each reading's `energyKw` onto
its zone's array in corpus order, so the array for a zone is exactly the
corpus filtered to that zone, projected to `energyKw`. -/
def groupEnergies (historicalData : List EnergyReading) (zoneId : String) : List ℚ :=
  (historicalData.filter (fun r => r.zoneId = zoneId)).map (fun r => r.energyKw)

/-- Models `Math.min(...values)` for the nonempty argument lists produced by
`calculateBaselines` (the empty case, which JavaScript maps to `Infinity`, is
unreachable there and given a dummy value). -/
def jsMathMin : List ℚ → ℚ
  | [] => 0
  | x :: xs => xs.foldl min x

/-- Models `Math.max(...values)` for the nonempty argument lists produced by
`calculateBaselines`. -/
def jsMathMax : List ℚ → ℚ
  | [] => 0
  | x :: xs => xs.foldl max x

/-- Models the JavaScript expression `found?.zoneName || zoneId`: `||` yields
the right operand when the left is falsy, i.e. `undefined` (the find failed)
or the empty string. -/
def jsNameOr (found : Option String) (zoneId : String) : String :=
  match found with
  | none => zoneId
  | some name => if name = "" then zoneId else name

/-- Mirrors `calculateBaselines` from `historicalData.ts` as a partial map from
zone ids; the zone-name fallback `find(...)?.zoneName || zoneId` goes through
`jsNameOr` to keep the JavaScript falsy semantics. -/
def calculateBaselines (historicalData : List EnergyReading) (zoneId : String) :
    Option HistoricalBaseline :=
  match groupEnergies historicalData zoneId with
  | [] => none
  | x :: xs =>
    some { zoneId := zoneId
           zoneName := jsNameOr ((historicalData.find? (fun r => r.zoneId = zoneId)).map
             (fun r => r.zoneName)) zoneId
           avgEnergyKw := (x :: xs).foldl (· + ·) 0 / (x :: xs).length
           minEnergyKw := jsMathMin (x :: xs)
           maxEnergyKw := jsMathMax (x :: xs)
           dataPoints := (x :: xs).length }

/-- A left fold of `min` over a list yields an element of the seed-extended
list. -/
theorem foldl_min_mem : ∀ (xs : List ℚ) (x : ℚ), xs.foldl min x ∈ x :: xs
  | [], _ => by simp
  | y :: ys, x => by
    simp only [List.foldl_cons]
    rcases List.mem_cons.mp (foldl_min_mem ys (min x y)) with h | h
    · rcases min_choice x y with hm | hm <;> rw [h, hm]
      · exact List.mem_cons_self _ _
      · simp
    · simp [List.mem_cons, Or.inr (Or.inr h)]

/-- A left fold of `min` over a list is a lower bound of the seed-extended
list. -/
theorem foldl_min_le : ∀ (xs : List ℚ) (x : ℚ), ∀ v ∈ x :: xs, xs.foldl min x ≤ v
  | [], _ => by simp
  | y :: ys, x => by
    intro v hv
    simp only [List.foldl_cons]
    have h := foldl_min_le ys (min x y)
    rcases List.mem_cons.mp hv with rfl | hv
    · exact le_trans (h _ (List.mem_cons_self _ _)) (min_le_left _ _)
    · rcases List.mem_cons.mp hv with rfl | hv
      · exact le_trans (h _ (List.mem_cons_self _ _)) (min_le_right _ _)
      · exact h v (List.mem_cons_of_mem _ hv)

/-- A left fold of `max` over a list yields an element of the seed-extended
list. -/
theorem foldl_max_mem : ∀ (xs : List ℚ) (x : ℚ), xs.foldl max x ∈ x :: xs
  | [], _ => by simp
  | y :: ys, x => by
    simp only [List.foldl_cons]
    rcases List.mem_cons.mp (foldl_max_mem ys (max x y)) with h | h
    · rcases max_choice x y with hm | hm <;> rw [h, hm]
      · exact List.mem_cons_self _ _
      · simp
    · simp [List.mem_cons, Or.inr (Or.inr h)]

/-- A left fold of `max` over a list is an upper bound of the seed-extended
list. -/
theorem le_foldl_max : ∀ (xs : List ℚ) (x : ℚ), ∀ v ∈ x :: xs, v ≤ xs.foldl max x
  | [], _ => by simp
  | y :: ys, x => by
    intro v hv
    simp only [List.foldl_cons]
    have h := le_foldl_max ys (max x y)
    rcases List.mem_cons.mp hv with rfl | hv
    · exact le_trans (le_max_left _ _) (h _ (List.mem_cons_self _ _))
    · rcases List.mem_cons.mp hv with rfl | hv
      · exact le_trans (le_max_right _ _) (h _ (List.mem_cons_self _ _))
      · exact h v (List.mem_cons_of_mem _ hv)

/-- C7: for every zone present in the corpus, `calculateBaselines` yields the
arithmetic mean, minimum and maximum of the zone's energy values and their
count; an empty corpus yields an empty map; a single-reading zone has
min = max = mean = that value; and the two-reading corpus for zone `a` with
energies 10 and 20 yields avg 15, min 10, max 20, dataPoints 2. -/
theorem baseline_statistics :
    (∀ (data : List EnergyReading) (z : String) (b : HistoricalBaseline),
      calculateBaselines data z = some b →
        b.dataPoints = (groupEnergies data z).length ∧
        b.avgEnergyKw = (groupEnergies data z).sum / (groupEnergies data z).length ∧
        b.minEnergyKw ∈ groupEnergies data z ∧
        (∀ v ∈ groupEnergies data z, b.minEnergyKw ≤ v) ∧
        b.maxEnergyKw ∈ groupEnergies data z ∧
        (∀ v ∈ groupEnergies data z, v ≤ b.maxEnergyKw)) ∧
    (∀ z, calculateBaselines [] z = none) ∧
    (∀ r : EnergyReading, ∃ b, calculateBaselines [r] r.zoneId = some b ∧
      b.zoneId = r.zoneId ∧ b.avgEnergyKw = r.energyKw ∧ b.minEnergyKw = r.energyKw ∧
      b.maxEnergyKw = r.energyKw ∧ b.dataPoints = 1) ∧
    (∃ b, calculateBaselines
        [⟨"t1", "a", "Zone A", 10, 20, 1⟩, ⟨"t2", "a", "Zone A", 20, 20, 1⟩] "a" = some b ∧
      b.avgEnergyKw = 15 ∧ b.minEnergyKw = 10 ∧ b.maxEnergyKw = 20 ∧ b.dataPoints = 2) := by
  refine ⟨?_, ?_, ?_, ?_⟩
  · intro data z b h
    unfold calculateBaselines at h
    rcases hg : groupEnergies data z with _ | ⟨x, xs⟩ <;> rw [hg] at h
    · exact absurd h (by simp)
    · cases h
      refine ⟨rfl, ?_, ?_, ?_, ?_, ?_⟩
      · show (x :: xs).foldl (· + ·) 0 / ((x :: xs).length : ℚ) = _
        rw [List.sum_eq_foldl]
      · exact foldl_min_mem xs x
      · exact foldl_min_le xs x
      · exact foldl_max_mem xs x
      · exact le_foldl_max xs x
  · intro z
    unfold calculateBaselines groupEnergies
    simp
  · intro r
    have hg : groupEnergies [r] r.zoneId = [r.energyKw] := by
      unfold groupEnergies
      simp
    unfold calculateBaselines
    rw [hg]
    refine ⟨_, rfl, rfl, ?_, rfl, rfl, rfl⟩
    show ([r.energyKw].foldl (· + ·) 0 : ℚ) / (([r.energyKw].length : ℕ) : ℚ) = r.energyKw
    simp
  · refine ⟨⟨"a", "Zone A", 15, 10, 20, 2⟩, ?_, rfl, rfl, rfl, rfl⟩
    unfold calculateBaselines groupEnergies jsMathMin jsMathMax jsNameOr
    norm_num
    decide

/-- Witness for C7 at the two-reading corpus for zone `a`. -/
theorem baseline_statistics_witness :
    calculateBaselines
        [⟨"t1", "a", "Zone A", 10, 20, 1⟩, ⟨"t2", "a", "Zone A", 20, 20, 1⟩] "a" =
      some ⟨"a", "Zone A", 15, 10, 20, 2⟩ ∧
    ((15 : ℚ) = (groupEnergies
        [⟨"t1", "a", "Zone A", 10, 20, 1⟩, ⟨"t2", "a", "Zone A", 20, 20, 1⟩] "a").sum /
      (groupEnergies
        [⟨"t1", "a", "Zone A", 10, 20, 1⟩, ⟨"t2", "a", "Zone A", 20, 20, 1⟩] "a").length ∧
     (10 : ℚ) ∈ groupEnergies
        [⟨"t1", "a", "Zone A", 10, 20, 1⟩, ⟨"t2", "a", "Zone A", 20, 20, 1⟩] "a" ∧
     (20 : ℚ) ∈ groupEnergies
        [⟨"t1", "a", "Zone A", 10, 20, 1⟩, ⟨"t2", "a", "Zone A", 20, 20, 1⟩] "a") := by
  have heval : calculateBaselines
      [⟨"t1", "a", "Zone A", 10, 20, 1⟩, ⟨"t2", "a", "Zone A", 20, 20, 1⟩] "a" =
      some ⟨"a", "Zone A", 15, 10, 20, 2⟩ := by
    unfold calculateBaselines groupEnergies jsMathMin jsMathMax jsNameOr
    norm_num
    decide
  have h := baseline_statistics.1
    [⟨"t1", "a", "Zone A", 10, 20, 1⟩, ⟨"t2", "a", "Zone A", 20, 20, 1⟩] "a"
    ⟨"a", "Zone A", 15, 10, 20, 2⟩ heval
  exact ⟨heval, h.2.1, h.2.2.1, h.2.2.2.2.1⟩

/-- Mirrors `MAX_READINGS_PER_ZONE` from `EnergyContext.tsx`. -/
def MAX_READINGS_PER_ZONE : ℕ := 1500

/-- One zone's windowing step from `handleMessage` in `EnergyContext.tsx`:
`[...zoneReadings, reading]`, then `shift()` (drop the first element) when the
length exceeds `MAX_READINGS_PER_ZONE`. -/
def appendReading (zoneReadings : List EnergyReading) (reading : EnergyReading) :
    List EnergyReading :=
  if MAX_READINGS_PER_ZONE < (zoneReadings ++ [reading]).length then
    (zoneReadings ++ [reading]).tail
  else zoneReadings ++ [reading]

/-- The `readings` map update of `handleMessage`: the arriving reading is
appended to its own zone's window (`updated.get(reading.zoneId) || []` is the
map with default `[]`, modelled as a total function), other zones are
untouched. -/
def handleMessageReadings (readings : String → List EnergyReading)
    (reading : EnergyReading) : String → List EnergyReading :=
  fun z =>
    if z = reading.zoneId then appendReading (readings reading.zoneId) reading
    else readings z

/-- The `readings` map after ingesting a whole stream in arrival order,
starting from the initial empty map. -/
def ingestAll (stream : List EnergyReading) : String → List EnergyReading :=
  stream.foldl handleMessageReadings (fun _ => [])

/-- Appending preserves the capacity bound. -/
theorem appendReading_length_le (l : List EnergyReading) (r : EnergyReading)
    (h : l.length ≤ MAX_READINGS_PER_ZONE) :
    (appendReading l r).length ≤ MAX_READINGS_PER_ZONE := by
  unfold appendReading
  split <;> rename_i hc <;>
    simp only [List.length_tail, List.length_append, List.length_cons,
      List.length_nil] at hc ⊢ <;> omega

/-- The last element of a window is always the reading just appended. -/
theorem appendReading_getLast (l : List EnergyReading) (r : EnergyReading) :
    (appendReading l r).getLast? = some r := by
  unfold appendReading
  split <;> rename_i hc
  · cases l with
    | nil => simp [MAX_READINGS_PER_ZONE] at hc
    | cons x xs =>
      rw [List.cons_append, List.tail_cons]
      exact List.getLast?_concat _
  · exact List.getLast?_concat _

/-- Folding the per-zone step over a whole stream, projected at one zone, is
the fold of the single-zone step over the readings of that zone. -/
theorem ingest_proj : ∀ (stream : List EnergyReading)
    (m : String → List EnergyReading) (z : String),
    stream.foldl handleMessageReadings m z =
      (stream.filter (fun r => r.zoneId = z)).foldl appendReading (m z)
  | [], _, _ => rfl
  | r :: rs, m, z => by
    simp only [List.foldl_cons, List.filter_cons]
    by_cases h : r.zoneId = z
    · rw [ingest_proj rs _ z, if_pos (show decide (r.zoneId = z) = true by simp [h]),
        List.foldl_cons]
      congr 1
      unfold handleMessageReadings
      rw [if_pos h.symm, h]
    · rw [ingest_proj rs _ z, if_neg (show ¬ decide (r.zoneId = z) = true by simp [h])]
      congr 1
      unfold handleMessageReadings
      rw [if_neg (fun hz => h hz.symm)]

/-- Capacity invariant for an arbitrary fold seed. -/
theorem foldl_append_length_le : ∀ (l : List EnergyReading) (acc : List EnergyReading),
    acc.length ≤ MAX_READINGS_PER_ZONE →
    (l.foldl appendReading acc).length ≤ MAX_READINGS_PER_ZONE
  | [], _, h => h
  | r :: rs, acc, h => by
    rw [List.foldl_cons]
    exact foldl_append_length_le rs _ (appendReading_length_le acc r h)

/-- While the window is within capacity no eviction happens: folding the step
over a short enough list reproduces the list. -/
theorem foldl_append_no_evict (l : List EnergyReading)
    (h : l.length ≤ MAX_READINGS_PER_ZONE) : l.foldl appendReading [] = l := by
  induction l using List.reverseRecOn with
  | nil => rfl
  | append_singleton xs x ih =>
    rw [List.foldl_append, List.foldl_cons, List.foldl_nil]
    rw [List.length_append, List.length_cons, List.length_nil] at h
    rw [ih (by omega)]
    unfold appendReading
    rw [if_neg (by simp only [List.length_append, List.length_cons, List.length_nil]; omega)]

/-- C5: for every ingest stream and every zone, the zone's window never exceeds
the 1500-reading capacity; when a stream of capacity + 1 readings all for one
zone is ingested, the window starts with the 2nd appended reading (FIFO
eviction); and appending any reading leaves it as the last element of its
zone's window. -/
theorem history_window_props (stream : List EnergyReading) (z : String) :
    (ingestAll stream z).length ≤ MAX_READINGS_PER_ZONE ∧
    ((∀ r ∈ stream, r.zoneId = z) → stream.length = MAX_READINGS_PER_ZONE + 1 →
      (ingestAll stream z).head? = stream[1]?) ∧
    (∀ r : EnergyReading, r.zoneId = z →
      (handleMessageReadings (ingestAll stream) r z).getLast? = some r) := by
  refine ⟨?_, ?_, ?_⟩
  · rw [ingestAll, ingest_proj]
    exact foldl_append_length_le _ _ (by simp)
  · intro hall hlen
    rw [ingestAll, ingest_proj]
    have hfil : stream.filter (fun r => r.zoneId = z) = stream :=
      List.filter_eq_self.mpr (fun r hr => by simp [hall r hr])
    rw [hfil]
    rcases stream.eq_nil_or_concat with rfl | ⟨l, r, rfl⟩
    · simp [MAX_READINGS_PER_ZONE] at hlen
    · rw [List.concat_eq_append] at hlen ⊢
      have hl : l.length = MAX_READINGS_PER_ZONE := by
        rw [List.length_append, List.length_cons, List.length_nil] at hlen
        omega
      rw [List.foldl_append, List.foldl_cons, List.foldl_nil,
        foldl_append_no_evict l (le_of_eq hl)]
      unfold appendReading
      rw [if_pos (by rw [List.length_append, List.length_cons, List.length_nil, hl]; omega)]
      cases l with
      | nil => rw [List.length_nil] at hl; simp [MAX_READINGS_PER_ZONE] at hl
      | cons x xs =>
        rw [List.cons_append, List.tail_cons]
        simp [List.head?_eq_getElem?]
  · intro r hr
    unfold handleMessageReadings
    rw [if_pos hr.symm, hr]
    exact appendReading_getLast _ _

/-- Sample reading used to exercise the history-window theorem. -/
def sampleReading : EnergyReading := ⟨"t", "assembly-1", "Assembly Line 1", 250, 22, 12⟩

/-- Capacity + 1 copies of the sample reading. -/
def sampleStream : List EnergyReading :=
  List.replicate (MAX_READINGS_PER_ZONE + 1) sampleReading

/-- Witness for C5 at a concrete stream of capacity + 1 readings of one zone. -/
theorem history_window_props_witness :
    (∀ r ∈ sampleStream, r.zoneId = "assembly-1") ∧
    sampleStream.length = MAX_READINGS_PER_ZONE + 1 ∧
    sampleReading.zoneId = "assembly-1" ∧
    ((ingestAll sampleStream "assembly-1").length ≤ MAX_READINGS_PER_ZONE ∧
     (ingestAll sampleStream "assembly-1").head? = sampleStream[1]? ∧
     (handleMessageReadings (ingestAll sampleStream) sampleReading "assembly-1").getLast? =
       some sampleReading) := by
  have h1 : ∀ r ∈ sampleStream, r.zoneId = "assembly-1" := by
    intro r hr
    rw [List.eq_of_mem_replicate hr]
    rfl
  have h2 : sampleStream.length = MAX_READINGS_PER_ZONE + 1 := by
    simp [sampleStream]
  exact ⟨h1, h2, rfl,
    (history_window_props sampleStream "assembly-1").1,
    (history_window_props sampleStream "assembly-1").2.1 h1 h2,
    (history_window_props sampleStream "assembly-1").2.2 sampleReading rfl⟩

/-- Mirrors `ConnectionStatus` from `src/frontend/src/types/index.ts`. -/
inductive ConnectionStatus where
  | CONNECTING
  | CONNECTED
  | DISCONNECTED
  | ERROR
deriving DecidableEq, Repr

/-- Mirrors `MAX_RECONNECT` from `src/frontend/src/hooks/useWebSocket.ts`. -/
def MAX_RECONNECT : ℕ := 5

/-- Observable adapter state of `useWebSocket`: the `status` and `attempts`
React state, the `reconnectAttemptsRef` counter, and the delay (ms) of the
retry timer scheduled by the most recently handled event (`none` when that
event scheduled no timer). -/
structure WsState where
  status : ConnectionStatus
  attempts : ℕ
  reconnectAttemptsRef : ℕ
  scheduledDelay : Option ℕ
deriving DecidableEq, Repr

/-- Connection events handled by the hook (message events do not touch the
reconnect state and are omitted). -/
inductive WsEvent where
  | onopen
  | onclose
  | onerror
deriving DecidableEq, Repr

/-- One event-handler step of `useWebSocket`: `onopen` sets status CONNECTED
and resets both counters; `onerror` sets status ERROR; `onclose` sets status
DISCONNECTED and, while `reconnectAttemptsRef < MAX_RECONNECT`, schedules a
retry after `1000 * 2 ^ reconnectAttemptsRef` ms and increments the counter —
otherwise it schedules nothing. -/
def wsStep (s : WsState) : WsEvent → WsState
  | .onopen =>
    { s with
      status := .CONNECTED
      attempts := 0
      reconnectAttemptsRef := 0
      scheduledDelay := none }
  | .onerror => { s with status := .ERROR, scheduledDelay := none }
  | .onclose =>
    if s.reconnectAttemptsRef < MAX_RECONNECT then
      { status := .DISCONNECTED
        attempts := s.reconnectAttemptsRef + 1
        reconnectAttemptsRef := s.reconnectAttemptsRef + 1
        scheduledDelay := some (1000 * 2 ^ s.reconnectAttemptsRef) }
    else { s with status := .DISCONNECTED, scheduledDelay := none }

/-- Initial hook state: `useState('CONNECTING')`, both counters 0, no timer. -/
def initialWsState : WsState := ⟨.CONNECTING, 0, 0, none⟩

/-- State after `n` consecutive close events (with no intervening open). -/
def closeRun (s : WsState) (n : ℕ) : WsState :=
  (List.replicate n WsEvent.onclose).foldl wsStep s

/-- Unfolding one close event of a close run. -/
theorem closeRun_succ (s : WsState) (n : ℕ) :
    closeRun s (n + 1) = closeRun (wsStep s .onclose) n := by
  unfold closeRun
  rw [List.replicate_succ, List.foldl_cons]

/-- Counterexample to C8 as stated: after 6 consecutive close events the
attempt counter is 5, not 6, and no 6th delay is scheduled — the hook stops
retrying after `MAX_RECONNECT` attempts instead of applying a delay cap. -/
theorem reconnect_backoff_counterexample :
    (closeRun initialWsState 6).attempts = 5 ∧
    (closeRun initialWsState 6).attempts ≠ 6 ∧
    (closeRun initialWsState 6).scheduledDelay = none := by decide

/-- C8 (amended): from a freshly-reset adapter state, for `N ≤ MAX_RECONNECT`
consecutive close events the attempt counter equals `N` and the `N`-th close
schedules a retry delay of `1000 × 2^(N−1)` ms — which equals
`min(1000 × 2^(N−1), 16000)` for these `N`; a close past the 5th scheduled
attempt leaves the counter at 5 and schedules no retry; and an open event
resets the counter to 0. -/
theorem reconnect_backoff (s0 : WsState) (h0 : s0.reconnectAttemptsRef = 0)
    (h1 : s0.attempts = 0) (n : ℕ) (hn : n ≤ MAX_RECONNECT) :
    (closeRun s0 n).attempts = n ∧
    (1 ≤ n → (closeRun s0 n).scheduledDelay = some (min (1000 * 2 ^ (n - 1)) 16000)) ∧
    (n = MAX_RECONNECT →
      (wsStep (closeRun s0 n) .onclose).attempts = MAX_RECONNECT ∧
      (wsStep (closeRun s0 n) .onclose).scheduledDelay = none) ∧
    (∀ s : WsState, (wsStep s .onopen).attempts = 0 ∧
      (wsStep s .onopen).reconnectAttemptsRef = 0) := by
  have hopen : ∀ s : WsState, (wsStep s .onopen).attempts = 0 ∧
      (wsStep s .onopen).reconnectAttemptsRef = 0 := fun s => ⟨rfl, rfl⟩
  have hstep1 : wsStep s0 .onclose = ⟨.DISCONNECTED, 1, 1, some 1000⟩ := by
    show (if s0.reconnectAttemptsRef < MAX_RECONNECT then _ else _) = _
    rw [h0, if_pos (by decide)]
    decide
  cases n with
  | zero =>
    exact ⟨h1, fun h => absurd h (by omega), fun h => absurd h (by decide), hopen⟩
  | succ m =>
    rw [closeRun_succ, hstep1]
    have hm : m ≤ 4 := by
      unfold MAX_RECONNECT at hn
      omega
    refine ⟨?_, ?_, ?_, hopen⟩ <;> interval_cases m <;> decide

/-- Witness for C8 (amended) at five consecutive close events from the initial
state. -/
theorem reconnect_backoff_witness :
    initialWsState.reconnectAttemptsRef = 0 ∧ initialWsState.attempts = 0 ∧
    5 ≤ MAX_RECONNECT ∧
    ((closeRun initialWsState 5).attempts = 5 ∧
     (1 ≤ 5 →
       (closeRun initialWsState 5).scheduledDelay = some (min (1000 * 2 ^ (5 - 1)) 16000)) ∧
     (5 = MAX_RECONNECT →
       (wsStep (closeRun initialWsState 5) .onclose).attempts = MAX_RECONNECT ∧
       (wsStep (closeRun initialWsState 5) .onclose).scheduledDelay = none) ∧
     (∀ s : WsState, (wsStep s .onopen).attempts = 0 ∧
       (wsStep s .onopen).reconnectAttemptsRef = 0)) :=
  ⟨rfl, rfl, by decide, reconnect_backoff initialWsState rfl rfl 5 (by decide)⟩
